import Mathlib

/-!
Shallow embedding of the CDK stack in
src/python/apigw-http-api-lambda-dynamodb-python-cdk/stacks/apigw_http_api_lambda_dynamodb_python_cdk_stack.py.

The stack constructor builds an inert graph of resource descriptors: a VPC
with isolated subnets and flow logs, a DynamoDB gateway endpoint with a
restricted policy, a provisioned DynamoDB table with write autoscaling, a
Lambda function in the isolated subnets, a Lambda REST API with throttling
and access logging, a WAFv2 Web ACL associated with the deployed API stage,
and seven CloudWatch alarms.

Identifiers that only exist after deployment (region, REST API id, stage
name, table name, Web ACL ARN) are modelled as symbolic tokens; a string
built from them at construction time (the f-string for the association
resource ARN) is modelled as a list of tokens.
-/

/-- Deploy-time values generated by the provisioning engine, referenced
symbolically at construction time. -/
inductive Token where
  | literal (s : String)
  | region
  | restApiId (constructId : String)
  | stageName (constructId : String)
  | tableName (constructId : String)
  | webAclArn (constructId : String)
  deriving DecidableEq, Repr

/-- ec2.SubnetType values used by the stack. -/
inductive SubnetType where
  | publicSubnet
  | privateWithEgress
  | privateIsolated
  deriving DecidableEq, Repr

/-- ec2.SubnetConfiguration. -/
structure SubnetConfiguration where
  name : String
  subnet_type : SubnetType
  cidr_mask : Nat
  deriving DecidableEq, Repr

/-- ec2.FlowLogTrafficType. -/
inductive FlowLogTrafficType where
  | all
  | accept
  | reject
  deriving DecidableEq, Repr

/-- A flow log attached to the VPC; the destination is the construct id of
the CloudWatch log group. -/
structure FlowLog where
  flow_log_id : String
  destination_log_group : String
  traffic_type : FlowLogTrafficType
  deriving DecidableEq, Repr

/-- ec2.Vpc as configured by the stack. -/
structure Vpc where
  construct_id : String
  cidr : String
  subnet_configuration : List SubnetConfiguration
  flow_logs : List FlowLog
  deriving DecidableEq, Repr

/-- vpc.add_flow_log appends a flow log to the VPC descriptor. -/
def Vpc.add_flow_log (v : Vpc) (fl : FlowLog) : Vpc :=
  { v with flow_logs := v.flow_logs ++ [fl] }

/-- logs.RetentionDays values needed by the stack, plus others so that the
field is not degenerate. -/
inductive RetentionDays where
  | oneDay
  | oneWeek
  | oneMonth
  | oneYear
  | twoYears
  | infiniteRetention
  deriving DecidableEq, Repr

/-- logs.LogGroup. -/
structure LogGroup where
  construct_id : String
  retention : RetentionDays
  deriving DecidableEq, Repr

/-- iam principals used by the stack. -/
inductive Principal where
  | anyPrincipal
  deriving DecidableEq, Repr

/-- iam.PolicyStatement. -/
structure PolicyStatement where
  principals : List Principal
  actions : List String
  resources : List String
  deriving DecidableEq, Repr

/-- ec2.GatewayVpcEndpoint. -/
structure GatewayVpcEndpoint where
  construct_id : String
  service : String
  policy_statements : List PolicyStatement
  deriving DecidableEq, Repr

/-- dynamo_db_endpoint.add_to_policy appends a statement to the endpoint
policy. -/
def GatewayVpcEndpoint.add_to_policy (e : GatewayVpcEndpoint)
    (st : PolicyStatement) : GatewayVpcEndpoint :=
  { e with policy_statements := e.policy_statements ++ [st] }

/-- dynamodb.AttributeType. -/
inductive AttributeType where
  | string
  | number
  | binary
  deriving DecidableEq, Repr

/-- dynamodb.Attribute. -/
structure Attribute where
  name : String
  type : AttributeType
  deriving DecidableEq, Repr

/-- dynamodb.BillingMode. -/
inductive BillingMode where
  | provisioned
  | payPerRequest
  deriving DecidableEq, Repr

/-- dynamodb.StreamViewType. -/
inductive StreamViewType where
  | newImage
  | oldImage
  | newAndOldImages
  | keysOnly
  deriving DecidableEq, Repr

/-- An autoscaling policy attached to a table capacity: the bounds given to
auto_scale_write_capacity and the target given to scale_on_utilization. -/
structure ScalingPolicy where
  min_capacity : Nat
  max_capacity : Nat
  target_utilization_percent : Option Nat
  deriving DecidableEq, Repr

/-- dynamodb.Table as configured by the stack, together with the
autoscaling attachments made on it. -/
structure Table where
  construct_id : String
  partition_key : Attribute
  billing_mode : BillingMode
  read_capacity : Nat
  write_capacity : Nat
  point_in_time_recovery : Bool
  stream : StreamViewType
  write_autoscaling : Option ScalingPolicy
  read_autoscaling : Option ScalingPolicy
  deriving DecidableEq, Repr

/-- demo_table.table_name: the generated table name token. -/
def Table.table_name (t : Table) : Token :=
  Token.tableName t.construct_id

/-- demo_table.auto_scale_write_capacity attaches write autoscaling bounds
to the table descriptor. -/
def Table.auto_scale_write_capacity (t : Table) (lo hi : Nat) : Table :=
  { t with write_autoscaling := some ⟨lo, hi, none⟩ }

/-- write_scaling.scale_on_utilization sets the target utilization of the
write autoscaling policy attached to the table. -/
def Table.scale_write_on_utilization (t : Table) (pct : Nat) : Table :=
  { t with write_autoscaling :=
      t.write_autoscaling.map (fun p => { p with target_utilization_percent := some pct }) }

/-- ec2.SubnetSelection. -/
structure SubnetSelection where
  subnet_type : SubnetType
  deriving DecidableEq, Repr

/-- lambda tracing modes. -/
inductive Tracing where
  | active
  | passThrough
  | disabled
  deriving DecidableEq, Repr

/-- lambda.Function as configured by the stack. -/
structure LambdaFunction where
  construct_id : String
  function_name : String
  runtime : String
  handler : String
  vpc : String
  vpc_subnets : SubnetSelection
  memory_size : Nat
  timeout_minutes : Nat
  tracing : Tracing
  log_retention : RetentionDays
  reserved_concurrent_executions : Option Nat
  environment : List (String × Token)
  deriving DecidableEq, Repr

/-- api_hanlder.add_environment appends one key/value pair to the runtime
environment of the function. -/
def LambdaFunction.add_environment (f : LambdaFunction) (k : String)
    (v : Token) : LambdaFunction :=
  { f with environment := f.environment ++ [(k, v)] }

/-- The reserved concurrency of the function, 0 when none is set. -/
def LambdaFunction.reserved_value (f : LambdaFunction) : Nat :=
  f.reserved_concurrent_executions.getD 0

/-- apigw.StageOptions as configured by the stack; the access log
destination is the construct id of the log group. -/
structure StageOptions where
  throttling_rate_limit : Nat
  throttling_burst_limit : Nat
  tracing_enabled : Bool
  access_log_destination : String
  deriving DecidableEq, Repr

/-- apigw.LambdaRestApi; the handler field is the construct id of the
Lambda function the API routes to. -/
structure LambdaRestApi where
  construct_id : String
  handler : String
  deploy_options : StageOptions
  deriving DecidableEq, Repr

/-- api.rest_api_id: the generated REST API id token. -/
def LambdaRestApi.rest_api_id (a : LambdaRestApi) : Token :=
  Token.restApiId a.construct_id

/-- api.deployment_stage.stage_name: the generated stage name token of the
deployment stage the API deploys. -/
def LambdaRestApi.deployment_stage_name (a : LambdaRestApi) : Token :=
  Token.stageName a.construct_id

/-- wafv2 VisibilityConfigProperty. -/
structure VisibilityConfig where
  cloud_watch_metrics_enabled : Bool
  metric_name : String
  sampled_requests_enabled : Bool
  deriving DecidableEq, Repr

/-- wafv2 rule actions used by the stack. -/
inductive RuleAction where
  | block
  | allow
  deriving DecidableEq, Repr

/-- wafv2 RuleProperty with a rate-based statement. -/
structure WafRule where
  name : String
  priority : Nat
  limit : Nat
  aggregate_key_type : String
  action : RuleAction
  visibility_config : VisibilityConfig
  deriving DecidableEq, Repr

/-- wafv2.CfnWebACL as configured by the stack. -/
structure CfnWebACL where
  construct_id : String
  scope : String
  default_action_allow : Bool
  visibility_config : VisibilityConfig
  rules : List WafRule
  deriving DecidableEq, Repr

/-- web_acl.attr_arn: the generated ARN token of the Web ACL. -/
def CfnWebACL.attr_arn (w : CfnWebACL) : Token :=
  Token.webAclArn w.construct_id

/-- wafv2.CfnWebACLAssociation; resource_arn is the f-string built at
construction time, as a list of tokens. -/
structure CfnWebACLAssociation where
  construct_id : String
  resource_arn : List Token
  web_acl_arn : Token
  deriving DecidableEq, Repr

/-- A metric passed to a CloudWatch alarm: either obtained from a resource
object of the stack (carrying the construct id of that resource), or a raw
cloudwatch.Metric built from a namespace, a metric name and dimensions. -/
inductive Metric where
  | functionErrors (constructId : String)
  | functionConcurrentExecutions (constructId : String)
  | apiServerError (constructId : String)
  | apiClientError (constructId : String)
  | tableUserErrors (constructId : String)
  | tableMetric (constructId : String) (metricName : String)
  | raw (namespaceName : String) (metricName : String)
      (dimensions : List (String × Token))
  deriving DecidableEq, Repr

/-- cloudwatch.Alarm. -/
structure Alarm where
  construct_id : String
  metric : Metric
  threshold : Nat
  evaluation_periods : Nat
  alarm_description : String
  deriving DecidableEq, Repr

/-- The descriptor graph produced by the stack constructor. Field names
follow the local variable names of the source, including the api_hanlder
typo. -/
structure StackModel where
  vpc : Vpc
  vpc_flow_log_group : LogGroup
  dynamo_db_endpoint : GatewayVpcEndpoint
  demo_table : Table
  api_hanlder : LambdaFunction
  api_log_group : LogGroup
  api : LambdaRestApi
  web_acl : CfnWebACL
  web_acl_association : CfnWebACLAssociation
  alarms : List Alarm
  deriving DecidableEq, Repr

/-- Module-level constant TABLE_NAME of the source file. -/
def TABLE_NAME : String := "demo_table"

/-- The descriptor graph built by the constructor of
ApigwHttpApiLambdaDynamodbPythonCdkStack, translated construct by
construct from the source. -/
def apigwStack : StackModel :=
  let vpc0 : Vpc :=
    { construct_id := "Ingress"
      cidr := "10.1.0.0/16"
      subnet_configuration :=
        [{ name := "Private-Subnet"
           subnet_type := SubnetType.privateIsolated
           cidr_mask := 24 }]
      flow_logs := [] }
  let vpc_flow_log_group : LogGroup :=
    { construct_id := "VpcFlowLogs", retention := RetentionDays.oneYear }
  let vpc := vpc0.add_flow_log
    { flow_log_id := "FlowLog"
      destination_log_group := "VpcFlowLogs"
      traffic_type := FlowLogTrafficType.all }
  let endpoint0 : GatewayVpcEndpoint :=
    { construct_id := "DynamoDBVpce"
      service := "DYNAMODB"
      policy_statements := [] }
  let dynamo_db_endpoint := endpoint0.add_to_policy
    { principals := [Principal.anyPrincipal]
      actions :=
        ["dynamodb:DescribeStream",
         "dynamodb:DescribeTable",
         "dynamodb:Get*",
         "dynamodb:Query",
         "dynamodb:Scan",
         "dynamodb:CreateTable",
         "dynamodb:Delete*",
         "dynamodb:Update*",
         "dynamodb:PutItem"]
      resources := ["*"] }
  let demo_table0 : Table :=
    { construct_id := TABLE_NAME
      partition_key := { name := "id", type := AttributeType.string }
      billing_mode := BillingMode.provisioned
      read_capacity := 5
      write_capacity := 100
      point_in_time_recovery := true
      stream := StreamViewType.newAndOldImages
      write_autoscaling := none
      read_autoscaling := none }
  let demo_table :=
    (demo_table0.auto_scale_write_capacity 10 200).scale_write_on_utilization 70
  let api_hanlder0 : LambdaFunction :=
    { construct_id := "ApiHandler"
      function_name := "apigw_handler"
      runtime := "python3.9"
      handler := "index.handler"
      vpc := "Ingress"
      vpc_subnets := { subnet_type := SubnetType.privateIsolated }
      memory_size := 1024
      timeout_minutes := 5
      tracing := Tracing.active
      log_retention := RetentionDays.oneYear
      reserved_concurrent_executions := some 60
      environment := [] }
  let api_hanlder := api_hanlder0.add_environment "TABLE_NAME" demo_table.table_name
  let api_log_group : LogGroup :=
    { construct_id := "ApiGatewayAccessLogs", retention := RetentionDays.oneYear }
  let api : LambdaRestApi :=
    { construct_id := "Endpoint"
      handler := "ApiHandler"
      deploy_options :=
        { throttling_rate_limit := 100
          throttling_burst_limit := 200
          tracing_enabled := true
          access_log_destination := "ApiGatewayAccessLogs" } }
  let web_acl : CfnWebACL :=
    { construct_id := "ApiWebAcl"
      scope := "REGIONAL"
      default_action_allow := true
      visibility_config :=
        { cloud_watch_metrics_enabled := true
          metric_name := "ApiWebAcl"
          sampled_requests_enabled := true }
      rules :=
        [{ name := "RateLimitRule"
           priority := 1
           limit := 2000
           aggregate_key_type := "IP"
           action := RuleAction.block
           visibility_config :=
             { cloud_watch_metrics_enabled := true
               metric_name := "RateLimitRule"
               sampled_requests_enabled := true } }] }
  let web_acl_association : CfnWebACLAssociation :=
    { construct_id := "WebAclAssociation"
      resource_arn :=
        [Token.literal "arn:aws:apigateway:", Token.region,
         Token.literal "::/restapis/", api.rest_api_id,
         Token.literal "/stages/", api.deployment_stage_name]
      web_acl_arn := web_acl.attr_arn }
  let alarms : List Alarm :=
    [{ construct_id := "LambdaErrorAlarm"
       metric := Metric.functionErrors api_hanlder.construct_id
       threshold := 1
       evaluation_periods := 1
       alarm_description := "Alert when Lambda function errors occur" },
     { construct_id := "LambdaConcurrencyAlarm"
       metric := Metric.functionConcurrentExecutions api_hanlder.construct_id
       threshold := 48
       evaluation_periods := 2
       alarm_description := "Alert when Lambda approaches concurrency limit" },
     { construct_id := "ApiGateway5xxAlarm"
       metric := Metric.apiServerError api.construct_id
       threshold := 5
       evaluation_periods := 2
       alarm_description := "Alert on API Gateway server errors" },
     { construct_id := "ApiGatewayThrottleAlarm"
       metric := Metric.apiClientError api.construct_id
       threshold := 50
       evaluation_periods := 2
       alarm_description := "Alert on API Gateway throttling events (429 responses)" },
     { construct_id := "WafBlockedRequestsAlarm"
       metric := Metric.raw "AWS/WAFV2" "BlockedRequests"
         [("WebACL", Token.literal "ApiWebAcl"),
          ("Region", Token.region),
          ("Rule", Token.literal "RateLimitRule")]
       threshold := 100
       evaluation_periods := 1
       alarm_description := "Alert when WAF blocks excessive requests" },
     { construct_id := "DynamoDBThrottleAlarm"
       metric := Metric.tableUserErrors demo_table.construct_id
       threshold := 10
       evaluation_periods := 2
       alarm_description := "Alert on DynamoDB throttling events" },
     { construct_id := "DynamoDBWriteThrottleAlarm"
       metric := Metric.tableMetric demo_table.construct_id "WriteThrottleEvents"
       threshold := 5
       evaluation_periods := 2
       alarm_description := "Alert on DynamoDB write throttling events" }]
  { vpc := vpc
    vpc_flow_log_group := vpc_flow_log_group
    dynamo_db_endpoint := dynamo_db_endpoint
    demo_table := demo_table
    api_hanlder := api_hanlder
    api_log_group := api_log_group
    api := api
    web_acl := web_acl
    web_acl_association := web_acl_association
    alarms := alarms }

/-- The construct ids of the resources the stack creates. -/
def StackModel.resource_ids (s : StackModel) : List String :=
  [s.vpc.construct_id, s.vpc_flow_log_group.construct_id,
   s.dynamo_db_endpoint.construct_id, s.demo_table.construct_id,
   s.api_hanlder.construct_id, s.api_log_group.construct_id,
   s.api.construct_id, s.web_acl.construct_id]

/-- Look up a dimension value in a dimensions map. -/
def dimension_value (dims : List (String × Token)) (k : String) : Option Token :=
  (dims.find? (fun p => p.fst == k)).map Prod.snd

/-- A metric belongs to the produced graph when the resource it was
obtained from is one of the resources the stack creates; a raw metric
belongs to the graph when its WebACL dimension names the CloudWatch metric
name of the Web ACL the stack creates and its Rule dimension names the
metric name of one of the rules of that Web ACL. -/
def metricBelongsToGraph (s : StackModel) (m : Metric) : Bool :=
  match m with
  | Metric.functionErrors cid => s.resource_ids.contains cid
  | Metric.functionConcurrentExecutions cid => s.resource_ids.contains cid
  | Metric.apiServerError cid => s.resource_ids.contains cid
  | Metric.apiClientError cid => s.resource_ids.contains cid
  | Metric.tableUserErrors cid => s.resource_ids.contains cid
  | Metric.tableMetric cid _ => s.resource_ids.contains cid
  | Metric.raw ns _ dims =>
      ns == "AWS/WAFV2"
      && (dimension_value dims "WebACL"
            == some (Token.literal s.web_acl.visibility_config.metric_name))
      && (match dimension_value dims "Rule" with
          | some (Token.literal rn) =>
              s.web_acl.rules.any (fun r => r.visibility_config.metric_name == rn)
          | _ => false)

/-- Find an alarm of the stack by construct id. -/
def find_alarm (s : StackModel) (cid : String) : Option Alarm :=
  s.alarms.find? (fun a => a.construct_id == cid)

/-- Average execution time of 500 ms assumed by the sizing comment above
the Function in the source. -/
def expected_execution_time_ms : Nat := 500

/-- Throttle rate limit times the expected execution-time factor: the
expected steady-state concurrency of the sizing comment. -/
def expected_concurrency (rateLimit execMs : Nat) : Nat :=
  rateLimit * execMs / 1000

/-- The 20 percent buffer of the sizing comment. -/
def buffer_percent : Nat := 20

/-- Modelled from the spec: the generated stage ARN of the Gateway, built
from its generated REST API id and the stage name of its deployment
stage. Compared with the resource_arn the source builds by f-string. -/
def gatewayStageArn (a : LambdaRestApi) : List Token :=
  [Token.literal "arn:aws:apigateway:", Token.region,
   Token.literal "::/restapis/", a.rest_api_id,
   Token.literal "/stages/", a.deployment_stage_name]

/-- The autoscaling bounds enclose the base provisioned value (vacuously
true when no autoscaling is attached). -/
def boundsEnclose (p : Option ScalingPolicy) (base : Nat) : Bool :=
  match p with
  | none => true
  | some b => Nat.ble b.min_capacity base && Nat.ble base b.max_capacity

/-- C1: in the produced descriptor graph the base provisioned write
capacity of the Table is 100, its write autoscaling bounds are min 10 and
max 200 with target utilization 70, and the bounds enclose the base value:
min le base le max. -/
theorem c1_write_bounds_enclose_base :
    apigwStack.demo_table.write_capacity = 100 ∧
    apigwStack.demo_table.write_autoscaling = some ⟨10, 200, some 70⟩ ∧
    boundsEnclose apigwStack.demo_table.write_autoscaling
      apigwStack.demo_table.write_capacity = true := by
  decide

/-- C2 counterexample: the reserved concurrency of the Function is 60 and
the throttle rate limit of the Gateway stage is 100 requests per second,
but 60 is NOT less than 100 times the expected execution-time factor of
0.5 seconds, i.e. not less than 50, so the claim as stated is false. -/
theorem c2_counterexample :
    apigwStack.api_hanlder.reserved_concurrent_executions = some 60 ∧
    apigwStack.api.deploy_options.throttling_rate_limit = 100 ∧
    ¬ (apigwStack.api_hanlder.reserved_value <
        expected_concurrency apigwStack.api.deploy_options.throttling_rate_limit
          expected_execution_time_ms) := by
  decide

/-- C2 (amended): the reserved concurrency of the Function equals the
throttle rate limit of the Gateway stage times the expected execution-time
factor of 0.5 seconds plus the 20 percent buffer stated in the sizing
comment (60 = 50 + 50 * 20 / 100); it therefore exceeds rate times factor,
and stays below the rate limit itself. -/
theorem c2_reserved_concurrency_sizing :
    apigwStack.api_hanlder.reserved_value =
      expected_concurrency apigwStack.api.deploy_options.throttling_rate_limit
          expected_execution_time_ms
        + expected_concurrency apigwStack.api.deploy_options.throttling_rate_limit
            expected_execution_time_ms * buffer_percent / 100 ∧
    expected_concurrency apigwStack.api.deploy_options.throttling_rate_limit
        expected_execution_time_ms < apigwStack.api_hanlder.reserved_value ∧
    apigwStack.api_hanlder.reserved_value <
      apigwStack.api.deploy_options.throttling_rate_limit := by
  decide

/-- C3: every alarm of the stack references a metric belonging to a
resource present in the produced descriptor graph, and in particular the
WebACL dimension of the WAF blocked-requests alarm equals the CloudWatch
metric name of the Web ACL the stack creates while its Rule dimension
names the rate-limit rule of that Web ACL. -/
theorem c3_alarm_metrics_belong_to_graph :
    (apigwStack.alarms.all fun a => metricBelongsToGraph apigwStack a.metric) = true ∧
    (find_alarm apigwStack "WafBlockedRequestsAlarm").map (fun a => a.metric) =
      some (Metric.raw "AWS/WAFV2" "BlockedRequests"
        [("WebACL", Token.literal apigwStack.web_acl.visibility_config.metric_name),
         ("Region", Token.region),
         ("Rule", Token.literal "RateLimitRule")]) := by
  decide

/-- C4: the resource_arn of the Firewall association equals the generated
stage ARN of the Gateway, built from the same REST API id token and the
same deployment stage name token the Gateway descriptor produces, and its
web_acl_arn is the ARN of the Web ACL created in the same stack. -/
theorem c4_association_references_gateway_stage :
    apigwStack.web_acl_association.resource_arn = gatewayStageArn apigwStack.api ∧
    apigwStack.web_acl_association.web_acl_arn = apigwStack.web_acl.attr_arn := by
  decide

/-- C5: the endpoint policy of the DynamoDB gateway endpoint consists of a
single statement whose actions are exactly the fixed allow-list, whose
resources are the wildcard, for any principal. -/
theorem c5_endpoint_policy_single_statement :
    apigwStack.dynamo_db_endpoint.policy_statements =
      [{ principals := [Principal.anyPrincipal]
         actions :=
           ["dynamodb:DescribeStream",
            "dynamodb:DescribeTable",
            "dynamodb:Get*",
            "dynamodb:Query",
            "dynamodb:Scan",
            "dynamodb:CreateTable",
            "dynamodb:Delete*",
            "dynamodb:Update*",
            "dynamodb:PutItem"]
         resources := ["*"] }] := by
  decide

/-- C6: every subnet configured in the VPC has subnet type
PRIVATE_ISOLATED (and there is at least one such subnet), and the subnet
selection of the Function selects exactly that isolated subnet type. -/
theorem c6_isolated_subnets :
    (apigwStack.vpc.subnet_configuration.all
      fun c => c.subnet_type == SubnetType.privateIsolated) = true ∧
    apigwStack.vpc.subnet_configuration ≠ [] ∧
    apigwStack.api_hanlder.vpc_subnets.subnet_type = SubnetType.privateIsolated := by
  decide

/-- C7: the runtime environment of the Function holds exactly one
variable, with key TABLE_NAME and value the generated table name token of
the demo table. -/
theorem c7_single_environment_variable :
    apigwStack.api_hanlder.environment =
      [("TABLE_NAME", apigwStack.demo_table.table_name)] ∧
    apigwStack.api_hanlder.environment.length = 1 := by
  decide

/-- C8: the threshold of the Lambda concurrency alarm is 48, which is
exactly 80 percent of the reserved concurrency of the Function
(48 = 60 * 80 / 100), so the alarm fires below the reservation. -/
theorem c8_concurrency_alarm_threshold :
    (find_alarm apigwStack "LambdaConcurrencyAlarm").map Alarm.threshold = some 48 ∧
    48 = apigwStack.api_hanlder.reserved_value * 80 / 100 ∧
    48 < apigwStack.api_hanlder.reserved_value := by
  decide

/-- C9: attaching write autoscaling (bounds plus target utilization)
changes only the write_autoscaling field of any table descriptor: the
partition key, billing mode, read capacity, base write capacity, backup
flag, stream mode and read autoscaling are unchanged; and in the produced
stack the read capacity stays at its base value 5 with no read autoscaling
attached. -/
theorem c9_autoscaling_frame :
    (∀ (t : Table) (lo hi pct : Nat),
      ((t.auto_scale_write_capacity lo hi).scale_write_on_utilization pct).partition_key
          = t.partition_key ∧
      ((t.auto_scale_write_capacity lo hi).scale_write_on_utilization pct).billing_mode
          = t.billing_mode ∧
      ((t.auto_scale_write_capacity lo hi).scale_write_on_utilization pct).read_capacity
          = t.read_capacity ∧
      ((t.auto_scale_write_capacity lo hi).scale_write_on_utilization pct).write_capacity
          = t.write_capacity ∧
      ((t.auto_scale_write_capacity lo hi).scale_write_on_utilization pct).point_in_time_recovery
          = t.point_in_time_recovery ∧
      ((t.auto_scale_write_capacity lo hi).scale_write_on_utilization pct).stream
          = t.stream ∧
      ((t.auto_scale_write_capacity lo hi).scale_write_on_utilization pct).read_autoscaling
          = t.read_autoscaling ∧
      ((t.auto_scale_write_capacity lo hi).scale_write_on_utilization pct).write_autoscaling
          = some ⟨lo, hi, some pct⟩) ∧
    apigwStack.demo_table.read_capacity = 5 ∧
    apigwStack.demo_table.read_autoscaling = none := by
  exact ⟨fun t lo hi pct => ⟨rfl, rfl, rfl, rfl, rfl, rfl, rfl, rfl⟩, rfl, rfl⟩

/-- C10: every log destination the stack configures, namely the VPC
flow-log log group, the log retention of the Function and the Gateway
access-log log group, has a retention period of exactly one year. -/
theorem c10_log_retention_one_year :
    apigwStack.vpc_flow_log_group.retention = RetentionDays.oneYear ∧
    apigwStack.api_hanlder.log_retention = RetentionDays.oneYear ∧
    apigwStack.api_log_group.retention = RetentionDays.oneYear := by
  exact ⟨rfl, rfl, rfl⟩
